import Mathlib

/-!
Verification of the station-tracker orbital-data engine.

This file gives a shallow embedding, over exact rationals, of the numeric and
string-building core of the two tracker variants in the repository:
`src/src/utils/stationTracker.ts` (the TypeScript/React variant) and
`src/css-monitor-extension/popup.js` (the extension variant).  JavaScript
number semantics are modelled exactly where the algorithms are exact
(remainder, floor, fixed-point and scientific formatting, decimal printing),
and theorems about the embedded definitions settle the specification claims.
-/

/-! ## JavaScript primitives -/

/-- Decimal digit to its character, as produced by JavaScript `Number#toString`. -/
def digitChar (d : ℕ) : Char := Char.ofNat (48 + d)

/-- Fuel-driven accumulation of the decimal digits of `n` (most significant
first), mirroring the digit loop of JavaScript `Number#toString` for a
nonnegative integer.  `fuel ≥ n` suffices for full evaluation. -/
def natToStringAux : ℕ → ℕ → List Char
  | 0, _ => []
  | fuel + 1, n => if n = 0 then [] else natToStringAux fuel (n / 10) ++ [digitChar (n % 10)]

/-- JavaScript `String(n)` / `n.toString()` for a nonnegative integer. -/
def natToString (n : ℕ) : String :=
  if n = 0 then "0" else ⟨natToStringAux n n⟩

/-- JavaScript `String(i)` / `i.toString()` for an integer. -/
def intToString (i : ℤ) : String :=
  if i < 0 then "-" ++ natToString i.natAbs else natToString i.natAbs

/-- JavaScript `String.prototype.padStart(n, c)`: left-pad to length `n`;
a string already at least `n` long is returned unchanged. -/
def jsPadStart (s : String) (n : ℕ) (c : Char) : String :=
  ⟨List.replicate (n - s.length) c⟩ ++ s

/-- JavaScript `String.prototype.padEnd(n, c)`: right-pad to length `n`;
a string already at least `n` long is returned unchanged. -/
def jsPadEnd (s : String) (n : ℕ) (c : Char) : String :=
  s ++ ⟨List.replicate (n - s.length) c⟩

/-- JavaScript `String.prototype.slice(-2)`: the last two characters
(the whole string when it is shorter than two characters). -/
def jsSliceLast2 (s : String) : String :=
  ⟨s.data.drop (s.data.length - 2)⟩

/-- Decimal rendering of the scaled integer `n` with `d` implied decimal
places, the digit layout produced by JavaScript `Number#toFixed`. -/
def natFixed (n d : ℕ) : String :=
  if d = 0 then natToString n
  else natToString (n / 10 ^ d) ++ "." ++ jsPadStart (natToString (n % 10 ^ d)) d '0'

/-- JavaScript `Number.prototype.toFixed(d)` on an exact rational: round to
the nearest multiple of `10⁻ᵈ`, ties toward the larger value (ECMA-262
chooses the larger candidate integer), keeping the sign of a negative input. -/
def jsToFixed (q : ℚ) (d : ℕ) : String :=
  let n : ℤ := ⌊q * 10 ^ d + 1 / 2⌋
  if n < 0 ∨ (n = 0 ∧ q < 0) then "-" ++ natFixed n.natAbs d else natFixed n.toNat d

/-- Truncation toward zero, the integer produced by JavaScript `%`
when dividing: `a % b = a - b * trunc(a / b)`. -/
def jsTruncZ (q : ℚ) : ℤ := if 0 ≤ q then ⌊q⌋ else ⌈q⌉

/-- The JavaScript remainder operator `a % b` (sign follows the dividend). -/
def jsRem (a b : ℚ) : ℚ := a - b * jsTruncZ (a / b)

/-! ## Longitude normalization

`popup.js` lines 405 and 475:
`longitude = ((((longitude + 180) % 360) + 360) % 360) - 180`. -/

/-- The longitude-normalization expression of `updateDisplay` and
`updateOrbitPath` in `popup.js`. -/
def normalizeLongitude (x : ℚ) : ℚ :=
  jsRem (jsRem (x + 180) 360 + 360) 360 - 180

/-! ## Dateline segmentation

Both variants carry ground-track points as `[latitude, longitude]` pairs and
split the path wherever consecutive longitudes differ by more than 180°
(`stationTracker.ts` lines 589-618, `popup.js` lines 513-542). -/

/-- Loop body of `splitOrbitAtDateline`: `prev` is the previously visited
point and `cur` the segment currently being accumulated.  A longitude jump of
more than 180° pushes the current segment (when nonempty, as the source
checks) and starts a fresh one seeded with the jumping point; otherwise the
point is appended to the current segment.  At the end of the input the
accumulated segment is pushed when nonempty. -/
def splitGo (prev : ℚ × ℚ) (cur : List (ℚ × ℚ)) :
    List (ℚ × ℚ) → List (List (ℚ × ℚ))
  | [] => if cur = [] then [] else [cur]
  | p :: rest =>
    if 180 < |p.2 - prev.2| then
      (if cur = [] then [] else [cur]) ++ splitGo p [p] rest
    else
      splitGo p (cur ++ [p]) rest

/-- The dateline segmenter of both variants: an empty input produces no
segments; otherwise the first point seeds the first segment (in
`stationTracker.ts` via the `i = 0` iteration, in `popup.js` via the
explicit `[points[0]]` initialisation) and the loop body runs over the rest. -/
def splitOrbitAtDateline : List (ℚ × ℚ) → List (List (ℚ × ℚ))
  | [] => []
  | p :: rest => splitGo p [p] rest

/-- Relation between adjacent points kept inside one segment: their
longitude difference is at most 180°. -/
def segLe (a b : ℚ × ℚ) : Prop := |b.2 - a.2| ≤ 180

/-- Relation between consecutive output segments: the longitude jump from the
last point of one segment to the first point of the next exceeds 180°. -/
def segJump (s t : List (ℚ × ℚ)) : Prop :=
  ∀ a ∈ s.getLast?, ∀ b ∈ t.head?, 180 < |b.2 - a.2|

/-! ## Data model -/

/-- The JSON element-set record used by both variants (field names as in the
CelesTrak payload and the fallback literals in the source). -/
structure TLEData where
  OBJECT_NAME : String
  OBJECT_ID : String
  EPOCH : String
  MEAN_MOTION : ℚ
  ECCENTRICITY : ℚ
  INCLINATION : ℚ
  RA_OF_ASC_NODE : ℚ
  ARG_OF_PERICENTER : ℚ
  MEAN_ANOMALY : ℚ
  EPHEMERIS_TYPE : ℕ
  CLASSIFICATION_TYPE : String
  NORAD_CAT_ID : ℕ
  ELEMENT_SET_NO : ℕ
  REV_AT_EPOCH : ℕ
  BSTAR : ℚ
  MEAN_MOTION_DOT : ℚ
  MEAN_MOTION_DDOT : ℚ

/-- The compiled-in fallback record for the CSS target
(`stationTracker.ts` lines 68-86). -/
def cssFallbackTLE : TLEData where
  OBJECT_NAME := "TIANHE"
  OBJECT_ID := "2021-035A"
  EPOCH := "2024-01-01T00:00:00.000000"
  MEAN_MOTION := 15.50103472
  ECCENTRICITY := 0
  INCLINATION := 41.462
  RA_OF_ASC_NODE := 123.4567
  ARG_OF_PERICENTER := 234.5678
  MEAN_ANOMALY := 345.6789
  EPHEMERIS_TYPE := 0
  CLASSIFICATION_TYPE := "U"
  NORAD_CAT_ID := 48274
  ELEMENT_SET_NO := 999
  REV_AT_EPOCH := 12345
  BSTAR := 0
  MEAN_MOTION_DOT := 0
  MEAN_MOTION_DDOT := 0

/-- The compiled-in fallback record for the ISS target
(`stationTracker.ts` lines 91-109). -/
def issFallbackTLE : TLEData where
  OBJECT_NAME := "ISS (ZARYA)"
  OBJECT_ID := "1998-067A"
  EPOCH := "2024-01-01T00:00:00.000000"
  MEAN_MOTION := 15.49112426
  ECCENTRICITY := 0.00055
  INCLINATION := 51.64
  RA_OF_ASC_NODE := 123.4567
  ARG_OF_PERICENTER := 234.5678
  MEAN_ANOMALY := 345.6789
  EPHEMERIS_TYPE := 0
  CLASSIFICATION_TYPE := "U"
  NORAD_CAT_ID := 25544
  ELEMENT_SET_NO := 999
  REV_AT_EPOCH := 12345
  BSTAR := 0.000021906
  MEAN_MOTION_DOT := 0.00002182
  MEAN_MOTION_DDOT := 0

/-- The fallback record hard-coded in `popup.js` lines 325-343. -/
def popupFallbackTLE : TLEData where
  OBJECT_NAME := "CSS (TIANHE)"
  OBJECT_ID := "2021-035A"
  EPOCH := "2025-06-11T02:33:23.591520"
  MEAN_MOTION := 15.58613121
  ECCENTRICITY := 0.0004208
  INCLINATION := 41.465
  RA_OF_ASC_NODE := 57.557
  ARG_OF_PERICENTER := 54.3679
  MEAN_ANOMALY := 305.755
  EPHEMERIS_TYPE := 0
  CLASSIFICATION_TYPE := "U"
  NORAD_CAT_ID := 48274
  ELEMENT_SET_NO := 999
  REV_AT_EPOCH := 23520
  BSTAR := 0.00023814
  MEAN_MOTION_DOT := 0.00018506
  MEAN_MOTION_DDOT := 0

/-- A cached element record together with its fetch timestamp
(the `CachedData` returned by `loadFromCache`). -/
structure CachedData where
  tle : TLEData
  timestamp : ℤ

/-! ## Cache -/

/-- Six hours in milliseconds (`stationTracker.ts` line 59,
`popup.js` line 19). -/
def cacheExpiryTime : ℤ := 6 * 60 * 60 * 1000

/-- The cache read of both variants (`stationTracker.ts` lines 162-184,
`popup.js` lines 192-218).  The argument models the outcome of
`chrome.storage.local.get`: `none` means the storage call threw (caught by
the source, which returns `null`); `some (tleOpt, tsOpt)` is the returned
object, in which each of the two keys may be absent.  The source guards with
`result[tleKey] && result[timestampKey]`, so a stored timestamp of `0`
(falsy in JavaScript) is treated exactly like a missing key; a fresh record
is one whose age `now - ts` is strictly below the 6-hour expiry. -/
def loadFromCache (result : Option (Option TLEData × Option ℤ)) (now : ℤ) :
    Option CachedData :=
  match result with
  | none => none
  | some (tleOpt, tsOpt) =>
    match tleOpt, tsOpt with
    | some tle, some ts =>
      if ts ≠ 0 then
        if now - ts < cacheExpiryTime then some ⟨tle, ts⟩ else none
      else none
    | _, _ => none

/-! ## Scheduler periods and refresh behavior -/

/-- Element-refresh timer period in `popup.js` line 567: the cache TTL. -/
def tleUpdateIntervalMs_popup : ℤ := cacheExpiryTime

/-- Element-refresh timer period in `stationTracker.ts` line 644: one hour. -/
def tleUpdateIntervalMs_ts : ℤ := 60 * 60 * 1000

/-- Whether one tick of the element-refresh timer of `popup.js` performs a network
fetch.  The tick handler is `loadData` (line 566), which returns right after
a cache hit (lines 160-179) and otherwise awaits `fetchFromNetwork`, whose
endpoint loop immediately issues a request (line 254). -/
def loadData_doesNetworkFetch (result : Option (Option TLEData × Option ℤ))
    (now : ℤ) : Bool :=
  (loadFromCache result now).isNone

/-- Whether one tick of the element-refresh timer of the ts variant performs a
network fetch.  Its handler (line 640-644) calls `fetchFromNetwork` directly,
whose body issues `fetch` unconditionally (line 206) with no cache
consultation, so every tick fetches. -/
def tsRefreshTick_doesNetworkFetch : Bool := true

/-! ## In-flight acquisitions -/

/-- Events that change the number of in-flight network acquisitions for one
tracked object. -/
inductive AcqEvent where
  | periodicTick : AcqEvent
  | forceRefresh : AcqEvent
  | responseSettled : AcqEvent

/-- In-flight acquisition count after an event.  Neither variant keeps any
"acquisition in progress" flag: the periodic element-refresh handler
(`stationTracker.ts` lines 640-644) and `forceRefresh` (lines 662-670;
`popup.js` lines 600-609) each call `fetchFromNetwork`, whose body issues its
HTTP request unconditionally (line 206; `popup.js` line 254), so each of
these events adds one in-flight request, and a response settling removes
one. -/
def acqStep (inflight : ℕ) : AcqEvent → ℕ
  | .periodicTick => inflight + 1
  | .forceRefresh => inflight + 1
  | .responseSettled => inflight - 1

/-- In-flight acquisition count after a sequence of events, starting idle. -/
def inflightAfter (evs : List AcqEvent) : ℕ := evs.foldl acqStep 0

/-! ## Fallback staleness reporting -/

/-- The element timestamp recorded by `useFallbackData` in `popup.js` (lines
352-353): the epoch of the record itself, parsed by `new Date(...).getTime()`, which
is abstracted here as `parseMillis`. -/
def useFallbackData_tleTimestamp_popup (parseMillis : String → ℤ) : ℤ :=
  parseMillis popupFallbackTLE.EPOCH

/-- The fallback data age in whole days reported by `popup.js` lines 356-359:
`Math.floor((Date.now() - epochTime) / (1000 * 60 * 60 * 24))`. -/
def useFallbackData_dataAgeDays_popup (parseMillis : String → ℤ) (now : ℤ) : ℤ :=
  ⌊((now - parseMillis popupFallbackTLE.EPOCH : ℤ) : ℚ) / (1000 * 60 * 60 * 24)⌋

/-- The element timestamp recorded by `useFallbackData` in
`stationTracker.ts` line 386: `this.updateTleTime(Date.now())` — the fetch
time, not the epoch of the record. -/
def useFallbackData_tleTimestamp_ts (now : ℤ) : ℤ := now

/-! ## Element-set encoding -/

/-- Fuel-driven exact base-10 logarithm floor: values below 1 are scaled up
by 10, values at least 10 scaled down.  With sufficient fuel this computes
the unique `e` with `10^e ≤ q < 10^(e+1)` for positive `q`, the exact value
of the expression `Math.floor(Math.log10(q))` in the source. -/
def log10floorAux (fuel : ℕ) (q : ℚ) : ℤ :=
  match fuel with
  | 0 => 0
  | f + 1 =>
    if q < 1 then log10floorAux f (q * 10) - 1
    else if q < 10 then 0
    else log10floorAux f (q / 10) + 1

/-- Exact `Math.floor(Math.log10(q))` for positive rational `q`
(`q.num.natAbs + q.den` is always enough fuel). -/
def log10floor (q : ℚ) : ℤ := log10floorAux (q.num.natAbs + q.den) q

/-- Model of `formatScientific` (`stationTracker.ts` lines 450-464).  The `width`
parameter is accepted but never used, exactly as in the source. -/
def formatScientific (num : ℚ) (width : ℕ) : String :=
  if num = 0 then " 00000-0"
  else
    let exponent := log10floor |num|
    let mantissa := |num| / 10 ^ exponent
    let mantissaInt := ⌊mantissa * 100000⌋
    let sign := if 0 ≤ num then " " else "-"
    let expSign := if 0 ≤ exponent then "+" else ""
    sign ++ jsPadStart (intToString mantissaInt) 5 '0' ++ expSign ++
      intToString exponent

/-- Model of `formatBstarFromJson` (`stationTracker.ts` lines 323-330), used by the
hand-built line 1 of `fetchFromNetwork`. -/
def formatBstarFromJson (bstar : ℚ) : String :=
  if bstar = 0 then "00000-0"
  else
    let exponent := log10floor |bstar|
    let mantissa := ⌊bstar * 10 ^ (-exponent + 4)⌋
    jsPadStart (natToString mantissa.natAbs) 5 '0' ++
      (if 0 ≤ exponent then "+" else "") ++ intToString exponent

/-- The local-time date fields that `formatEpochCorrect` extracts from
`new Date(epochStr)`: the full year, the day number within the year, and the
milliseconds elapsed within the day.  The `Date` capability itself is
abstracted as a parsing function into these parts. -/
structure DateParts where
  year : ℕ
  dayOfYear : ℕ
  msOfDay : ℕ

/-- Model of `formatEpochCorrect` (`stationTracker.ts` lines 429-448): two-digit year
(`getFullYear().toString().slice(-2)`) followed by the fractional day of
year, `dayOfYear + (3600·h + 60·m + s + ms/1000)/86400 = dayOfYear +
msOfDay/86400000`, rendered with `toFixed(8).padStart(12, "0")`. -/
def formatEpochCorrect (parse : String → DateParts) (epochStr : String) :
    String :=
  let dp := parse epochStr
  let year := jsSliceLast2 (natToString dp.year)
  let epochDay : ℚ := (dp.dayOfYear : ℚ) + (dp.msOfDay : ℚ) / 86400000
  year ++ jsPadStart (jsToFixed epochDay 8) 12 '0'

/-- Model of `generateTLE1` (`stationTracker.ts` lines 391-409).  JavaScript `||`
defaulting: an empty classification string falls back to `"U"`, an
element-set number of `0` (falsy) falls back to `999`, and
`EPHEMERIS_TYPE || 0` is the identity on a natural number. -/
def generateTLE1 (parse : String → DateParts) (t : TLEData) : String :=
  let satNum := jsPadStart (natToString t.NORAD_CAT_ID) 5 '0'
  let cls := if t.CLASSIFICATION_TYPE = "" then "U" else t.CLASSIFICATION_TYPE
  let intlDesignator := jsPadEnd t.OBJECT_ID 8 ' '
  let epoch := formatEpochCorrect parse t.EPOCH
  let meanMotionDot := formatScientific t.MEAN_MOTION_DOT 8
  let meanMotionDDot := formatScientific t.MEAN_MOTION_DDOT 8
  let bstar := formatScientific t.BSTAR 8
  let ephemerisType := t.EPHEMERIS_TYPE
  let elementSetNum :=
    jsPadStart (natToString (if t.ELEMENT_SET_NO = 0 then 999
      else t.ELEMENT_SET_NO)) 4 '0'
  "1 " ++ satNum ++ cls ++ " " ++ intlDesignator ++ " " ++ epoch ++ " " ++
    meanMotionDot ++ " " ++ meanMotionDDot ++ " " ++ bstar ++ " " ++
    natToString ephemerisType ++ " " ++ elementSetNum ++ "0"

/-- Model of `generateTLE2` (`stationTracker.ts` lines 411-427). -/
def generateTLE2 (t : TLEData) : String :=
  let satNum := jsPadStart (natToString t.NORAD_CAT_ID) 5 '0'
  let inclination := jsPadStart (jsToFixed t.INCLINATION 4) 8 ' '
  let raan := jsPadStart (jsToFixed t.RA_OF_ASC_NODE 4) 8 ' '
  let eccentricity := jsPadStart (intToString ⌊t.ECCENTRICITY * 10000000⌋) 7 '0'
  let argPerigee := jsPadStart (jsToFixed t.ARG_OF_PERICENTER 4) 8 ' '
  let meanAnomaly := jsPadStart (jsToFixed t.MEAN_ANOMALY 4) 8 ' '
  let meanMotion := jsPadStart (jsToFixed t.MEAN_MOTION 8) 11 ' '
  let revNum := jsPadStart (natToString t.REV_AT_EPOCH) 5 '0'
  "2 " ++ satNum ++ " " ++ inclination ++ " " ++ raan ++ " " ++ eccentricity ++
    " " ++ argPerigee ++ " " ++ meanAnomaly ++ " " ++ meanMotion ++ revNum ++ "0"

/-! ## Orbital period -/

/-- The orbital period in minutes computed for every data update
(`stationTracker.ts` line 516, `popup.js` line 423): `(24 * 60) / MEAN_MOTION`. -/
def periodMinutes (t : TLEData) : ℚ := (24 * 60) / t.MEAN_MOTION

/-- The period string carried in the data-update event of the ts variant
(`stationTracker.ts` line 525): two decimals. -/
def periodDisplay_ts (t : TLEData) : String := jsToFixed (periodMinutes t) 2

/-- The period text rendered by the popup variant (`popup.js` line 424):
one decimal. -/
def periodDisplay_popup (t : TLEData) : String := jsToFixed (periodMinutes t) 1

/-! ## Theorems and lemmas -/

lemma jsRem_of_nonneg_div (a b : ℚ) (h : 0 ≤ a / b) (hb : b ≠ 0) :
    jsRem a b = b * Int.fract (a / b) := by
  unfold jsRem jsTruncZ
  rw [if_pos h]
  simp only [Int.fract]
  rw [mul_sub, mul_comm b (a / b), div_mul_cancel₀ a hb]

lemma jsRem_bounds_of_nonneg (a b : ℚ) (ha : 0 ≤ a) (hb : 0 < b) :
    0 ≤ jsRem a b ∧ jsRem a b < b := by
  rw [jsRem_of_nonneg_div a b (div_nonneg ha hb.le) hb.ne']
  constructor
  · exact mul_nonneg hb.le (Int.fract_nonneg _)
  · calc b * Int.fract (a / b) < b * 1 :=
          (mul_lt_mul_left hb).mpr (Int.fract_lt_one _)
    _ = b := mul_one b

lemma jsRem_bounds (a b : ℚ) (hb : 0 < b) : -b < jsRem a b ∧ jsRem a b < b := by
  by_cases h : 0 ≤ a / b
  · have ha : 0 ≤ a := by
      have h2 := mul_nonneg h hb.le
      rwa [div_mul_cancel₀ a hb.ne'] at h2
    obtain ⟨g1, g2⟩ := jsRem_bounds_of_nonneg a b ha hb
    exact ⟨by linarith, g2⟩
  · push_neg at h
    unfold jsRem jsTruncZ
    rw [if_neg (not_le.mpr h)]
    have hba : b * (a / b) = a := by
      field_simp
    constructor
    · have hceil : (⌈a / b⌉ : ℚ) < a / b + 1 := Int.ceil_lt_add_one _
      have h3 := (mul_lt_mul_left hb).mpr hceil
      rw [mul_add, hba, mul_one] at h3
      linarith
    · have hle : a / b ≤ (⌈a / b⌉ : ℚ) := Int.le_ceil _
      have h4 := (mul_le_mul_left hb).mpr hle
      rw [hba] at h4
      linarith

lemma normalizeLongitude_mem (x : ℚ) :
    -180 ≤ normalizeLongitude x ∧ normalizeLongitude x < 180 := by
  unfold normalizeLongitude
  obtain ⟨h1, h2⟩ := jsRem_bounds (x + 180) 360 (by norm_num)
  obtain ⟨h3, h4⟩ := jsRem_bounds_of_nonneg (jsRem (x + 180) 360 + 360) 360
    (by linarith) (by norm_num)
  constructor <;> linarith

lemma normalizeLongitude_fixed (y : ℚ) (h1 : -180 ≤ y) (h2 : y < 180) :
    normalizeLongitude y = y := by
  have hf1 : ⌊(y + 180) / 360⌋ = 0 := by
    rw [Int.floor_eq_zero_iff]
    constructor
    · exact div_nonneg (by linarith) (by norm_num)
    · rw [div_lt_one (by norm_num : (0:ℚ) < 360)]
      linarith
  have e1 : jsRem (y + 180) 360 = y + 180 := by
    unfold jsRem jsTruncZ
    rw [if_pos (div_nonneg (by linarith) (by norm_num)), hf1]
    push_cast
    ring
  have hf2 : ⌊(y + 180 + 360) / 360⌋ = 1 := by
    rw [Int.floor_eq_iff]
    constructor
    · rw [le_div_iff₀ (by norm_num : (0:ℚ) < 360)]
      push_cast
      linarith
    · rw [div_lt_iff₀ (by norm_num : (0:ℚ) < 360)]
      push_cast
      linarith
  have e2 : jsRem (y + 180 + 360) 360 = y + 180 := by
    unfold jsRem jsTruncZ
    rw [if_pos (div_nonneg (by linarith) (by norm_num)), hf2]
    push_cast
    ring
  unfold normalizeLongitude
  rw [e1, e2]
  ring

/-- C1: for every rational longitude input `x`, the JavaScript normalization
`((x + 180) % 360 + 360) % 360 - 180` used by `updateDisplay` and
`updateOrbitPath` in `popup.js` yields a value in `[-180, 180)`, and applying
it twice gives the same result as applying it once. -/
theorem c1_normalizeLongitude_range_and_idempotent (x : ℚ) :
    -180 ≤ normalizeLongitude x ∧ normalizeLongitude x < 180 ∧
      normalizeLongitude (normalizeLongitude x) = normalizeLongitude x := by
  obtain ⟨h1, h2⟩ := normalizeLongitude_mem x
  exact ⟨h1, h2, normalizeLongitude_fixed _ h1 h2⟩

lemma splitGo_flatten (rest : List (ℚ × ℚ)) : ∀ prev cur, cur ≠ [] →
    (splitGo prev cur rest).flatten = cur ++ rest := by
  induction rest with
  | nil =>
    intro prev cur h
    simp [splitGo, if_neg h]
  | cons p rest ih =>
    intro prev cur h
    by_cases hb : 180 < |p.2 - prev.2|
    · simp only [splitGo, if_pos hb, if_neg h]
      rw [List.flatten_append, ih p [p] (by simp)]
      simp
    · simp only [splitGo, if_neg hb]
      rw [ih p (cur ++ [p]) (by simp)]
      simp

lemma splitGo_ne_nil (rest : List (ℚ × ℚ)) : ∀ prev cur, cur ≠ [] →
    ∀ s ∈ splitGo prev cur rest, s ≠ [] := by
  induction rest with
  | nil =>
    intro prev cur h s hs
    simp only [splitGo, if_neg h, List.mem_singleton] at hs
    exact hs ▸ h
  | cons p rest ih =>
    intro prev cur h s hs
    by_cases hb : 180 < |p.2 - prev.2|
    · simp only [splitGo, if_pos hb, if_neg h, List.singleton_append,
        List.mem_cons] at hs
      rcases hs with hs | hs
      · exact hs ▸ h
      · exact ih p [p] (by simp) s hs
    · simp only [splitGo, if_neg hb] at hs
      exact ih p (cur ++ [p]) (by simp) s hs

lemma splitGo_head_head (rest : List (ℚ × ℚ)) : ∀ prev cur, cur ≠ [] →
    ((splitGo prev cur rest).head?.bind List.head?) = cur.head? := by
  induction rest with
  | nil =>
    intro prev cur h
    simp [splitGo, if_neg h]
  | cons p rest ih =>
    intro prev cur h
    by_cases hb : 180 < |p.2 - prev.2|
    · simp [splitGo, if_pos hb, if_neg h]
    · simp only [splitGo, if_neg hb]
      rw [ih p (cur ++ [p]) (by simp)]
      obtain ⟨a, cur', rfl⟩ := List.exists_cons_of_ne_nil h
      simp

lemma splitGo_chain_le (rest : List (ℚ × ℚ)) : ∀ prev cur, cur ≠ [] →
    cur.getLast? = some prev → List.Chain' segLe cur →
    ∀ s ∈ splitGo prev cur rest, List.Chain' segLe s := by
  induction rest with
  | nil =>
    intro prev cur h _ hc s hs
    simp only [splitGo, if_neg h, List.mem_singleton] at hs
    exact hs ▸ hc
  | cons p rest ih =>
    intro prev cur h hlast hc s hs
    by_cases hb : 180 < |p.2 - prev.2|
    · simp only [splitGo, if_pos hb, if_neg h, List.singleton_append,
        List.mem_cons] at hs
      rcases hs with hs | hs
      · exact hs ▸ hc
      · exact ih p [p] (by simp) (by simp) (List.chain'_singleton p) s hs
    · simp only [splitGo, if_neg hb] at hs
      apply ih p (cur ++ [p]) (by simp) (by simp) ?_ s hs
      rw [List.chain'_append]
      refine ⟨hc, List.chain'_singleton p, ?_⟩
      intro x hx y hy
      rw [hlast, Option.mem_some_iff] at hx
      simp only [List.head?_cons, Option.mem_some_iff] at hy
      subst hx
      subst hy
      exact not_lt.mp hb

lemma splitGo_chain_jump (rest : List (ℚ × ℚ)) : ∀ prev cur, cur ≠ [] →
    cur.getLast? = some prev →
    List.Chain' segJump (splitGo prev cur rest) := by
  induction rest with
  | nil =>
    intro prev cur h _
    simp only [splitGo, if_neg h]
    exact List.chain'_singleton cur
  | cons p rest ih =>
    intro prev cur h hlast
    by_cases hb : 180 < |p.2 - prev.2|
    · simp only [splitGo, if_pos hb, if_neg h, List.singleton_append]
      rw [List.chain'_cons']
      constructor
      · intro y hy a ha b hbm
        rw [hlast, Option.mem_some_iff] at ha
        have hh := splitGo_head_head rest p [p] (by simp)
        rw [Option.mem_def] at hy
        rw [hy, Option.some_bind] at hh
        rw [Option.mem_def, hh, List.head?_cons, Option.some_inj] at hbm
        subst ha
        subst hbm
        exact hb
      · exact ih p [p] (by simp) (by simp)
    · simp only [splitGo, if_neg hb]
      exact ih p (cur ++ [p]) (by simp) (by simp)

/-- C2: the dateline segmenter partitions its input in order (concatenating
the output segments reproduces the input), keeps only jumps of at most 180°
inside segments, places every segment boundary at a longitude jump exceeding
180°, maps empty input to empty output and a single point to one singleton
segment, and on `[(0,179), (0,-179), (0,-170)]` yields
`[[(0,179)], [(0,-179), (0,-170)]]`. -/
theorem c2_splitOrbitAtDateline_spec (ps : List (ℚ × ℚ)) :
    (splitOrbitAtDateline ps).flatten = ps ∧
    (∀ s ∈ splitOrbitAtDateline ps, s ≠ [] ∧ List.Chain' segLe s) ∧
    List.Chain' segJump (splitOrbitAtDateline ps) ∧
    splitOrbitAtDateline [] = ([] : List (List (ℚ × ℚ))) ∧
    (∀ p : ℚ × ℚ, splitOrbitAtDateline [p] = [[p]]) ∧
    splitOrbitAtDateline [((0:ℚ), 179), (0, -179), (0, -170)] =
      [[((0:ℚ), 179)], [(0, -179), (0, -170)]] := by
  refine ⟨?_, ?_, ?_, rfl, ?_, ?_⟩
  · cases ps with
    | nil => rfl
    | cons p rest =>
      show (splitGo p [p] rest).flatten = p :: rest
      rw [splitGo_flatten rest p [p] (by simp)]
      simp
  · cases ps with
    | nil => intro s hs; simp [splitOrbitAtDateline] at hs
    | cons p rest =>
      intro s hs
      exact ⟨splitGo_ne_nil rest p [p] (by simp) s hs,
        splitGo_chain_le rest p [p] (by simp) (by simp)
          (List.chain'_singleton p) s hs⟩
  · cases ps with
    | nil => exact List.chain'_nil
    | cons p rest => exact splitGo_chain_jump rest p [p] (by simp) (by simp)
  · intro p
    simp [splitOrbitAtDateline, splitGo]
  · show splitGo ((0:ℚ), 179) [((0:ℚ), 179)] [(0, -179), (0, -170)] = _
    have h1 : (180:ℚ) < |((0:ℚ), (-179:ℚ)).2 - ((0:ℚ), (179:ℚ)).2| := by
      simp only []
      rw [show ((-179:ℚ) - 179) = -358 by norm_num, abs_of_nonpos (by norm_num)]
      norm_num
    have h2 : ¬ (180:ℚ) < |((0:ℚ), (-170:ℚ)).2 - ((0:ℚ), (-179:ℚ)).2| := by
      simp only []
      rw [show ((-170:ℚ) - -179) = 9 by norm_num, abs_of_nonneg (by norm_num)]
      norm_num
    rw [splitGo, if_pos h1, splitGo, if_neg h2, splitGo]
    simp

theorem c2_splitOrbitAtDateline_spec_witness :
    [((0:ℚ), (179:ℚ))] ≠ [] ∧ List.Chain' segLe [((0:ℚ), (179:ℚ))] := by
  have hex := (c2_splitOrbitAtDateline_spec
    [((0:ℚ), 179), (0, -179), (0, -170)]).2.2.2.2.2
  exact (c2_splitOrbitAtDateline_spec
    [((0:ℚ), 179), (0, -179), (0, -170)]).2.1 [((0:ℚ), 179)]
    (hex ▸ List.mem_cons_self _ _)

/-- C3 counterexample: a record physically present with timestamp `0` and age
below the TTL nevertheless reads as absent, because the truthiness
guard `result[tleKey] && result[timestampKey]` in the source rejects a `0` timestamp. -/
theorem c3_counterexample_zero_timestamp :
    loadFromCache (some (some cssFallbackTLE, some 0)) 1000 = none ∧
    (1000:ℤ) - 0 < cacheExpiryTime := by
  exact ⟨rfl, by decide⟩

/-- C3 (amended): a cache read returns the stored record exactly when the
storage access succeeds, both keys are present, the stored timestamp is
truthy (nonzero), and the age of the record is strictly below the 6-hour TTL; a
stale record reads as absent even though present, and a storage failure
degrades to a cache miss. -/
theorem c3_loadFromCache_spec (result : Option (Option TLEData × Option ℤ))
    (now : ℤ) :
    (∀ tle ts, result = some (some tle, some ts) → ts ≠ 0 →
      now - ts < cacheExpiryTime → loadFromCache result now = some ⟨tle, ts⟩) ∧
    (∀ tle ts, result = some (some tle, some ts) →
      cacheExpiryTime ≤ now - ts → loadFromCache result now = none) ∧
    loadFromCache none now = none ∧
    (loadFromCache result now ≠ none ↔
      ∃ tle ts, result = some (some tle, some ts) ∧ ts ≠ 0 ∧
        now - ts < cacheExpiryTime) := by
  refine ⟨?_, ?_, rfl, ?_⟩
  · rintro tle ts rfl hts hfresh
    simp [loadFromCache, hts, hfresh]
  · rintro tle ts rfl hstale
    by_cases hts : ts = 0 <;> simp [loadFromCache, hts, not_lt.mpr hstale]
  · constructor
    · intro h
      match result with
      | none => exact absurd rfl h
      | some (none, tsOpt) => exact absurd rfl h
      | some (some tle, none) => exact absurd rfl h
      | some (some tle, some ts) =>
        simp only [loadFromCache] at h
        split_ifs at h with h1 h2
        · exact ⟨tle, ts, rfl, h1, h2⟩
        · exact absurd rfl h
        · exact absurd rfl h
    · rintro ⟨tle, ts, rfl, hts, hf⟩
      simp [loadFromCache, hts, hf]

theorem c3_loadFromCache_spec_witness :
    loadFromCache (some (some cssFallbackTLE, some 5)) 10 =
      some ⟨cssFallbackTLE, 5⟩ :=
  (c3_loadFromCache_spec (some (some cssFallbackTLE, some 5)) 10).1
    cssFallbackTLE 5 rfl (by decide) (by decide)

/-- C4 counterexample: in the `stationTracker.ts` variant a tick of the
element-refresh timer performs a network fetch even while the cache is fresh
(here: a record fetched 1000 ms ago), and the refresh period is one hour,
not the canonical six-hour cache TTL. -/
theorem c4_counterexample_ts_refresh_not_cache_gated :
    tsRefreshTick_doesNetworkFetch = true ∧
    loadFromCache (some (some cssFallbackTLE, some 1000)) 2000 =
      some ⟨cssFallbackTLE, 1000⟩ ∧
    tleUpdateIntervalMs_ts ≠ cacheExpiryTime := by
  exact ⟨rfl, rfl, by decide⟩

/-- C4 (amended): in the `popup.js` variant the element-refresh timer fires
with period equal to the 6-hour cache TTL and its tick re-runs the cache
check, performing network I/O exactly when the cache read misses (absent or
expired); the `stationTracker.ts` variant instead fetches on every tick of a
one-hour timer. -/
theorem c4_popup_refresh_cache_gated (result : Option (Option TLEData × Option ℤ))
    (now : ℤ) :
    tleUpdateIntervalMs_popup = cacheExpiryTime ∧
    (loadData_doesNetworkFetch result now = true ↔
      loadFromCache result now = none) ∧
    tsRefreshTick_doesNetworkFetch = true := by
  refine ⟨rfl, ?_, rfl⟩
  simp [loadData_doesNetworkFetch, Option.isNone_iff_eq_none]

/-- C5: starting from an idle state, a periodic element-refresh tick followed
by a `forceRefresh` before the first response settles leaves two concurrent
in-flight network acquisitions for the same tracked object — the code keeps
no in-flight guard, so the claimed at-most-one invariant fails. -/
theorem c5_two_inflight_acquisitions_reachable :
    inflightAfter [AcqEvent.periodicTick, AcqEvent.forceRefresh] = 2 ∧
    ¬ inflightAfter [AcqEvent.periodicTick, AcqEvent.forceRefresh] ≤ 1 := by
  exact ⟨rfl, by decide⟩

/-- C6 counterexample: with the epoch parsing to 0 ms and the fallback taken
at fetch time 1000 ms, the `stationTracker.ts` fallback path stamps the
element time with the fetch time (1000), not the epoch-derived
value of the record (0) as the popup variant does. -/
theorem c6_counterexample_ts_fallback_fetch_time :
    useFallbackData_tleTimestamp_ts 1000 = 1000 ∧
    useFallbackData_tleTimestamp_popup (fun _ => 0) = 0 ∧
    (1000:ℤ) ≠ 0 := by
  exact ⟨rfl, rfl, by decide⟩

/-- C6 (amended): the `popup.js` fallback path reports staleness derived from
the epoch of the record itself — the stamped element time is the parsed epoch, and
the reported age is the whole number of days elapsed since that epoch —
whereas the `stationTracker.ts` fallback path stamps the current fetch time,
so its reported age is zero at the moment of fallback. -/
theorem c6_popup_fallback_age_epoch_derived (parseMillis : String → ℤ)
    (d r : ℤ) (h0 : 0 ≤ r) (h1 : r < 86400000) :
    useFallbackData_tleTimestamp_popup parseMillis =
      parseMillis popupFallbackTLE.EPOCH ∧
    useFallbackData_dataAgeDays_popup parseMillis
      (parseMillis popupFallbackTLE.EPOCH + d * 86400000 + r) = d ∧
    ∀ now : ℤ, useFallbackData_tleTimestamp_ts now = now := by
  refine ⟨rfl, ?_, fun _ => rfl⟩
  unfold useFallbackData_dataAgeDays_popup
  rw [show parseMillis popupFallbackTLE.EPOCH + d * 86400000 + r -
      parseMillis popupFallbackTLE.EPOCH = d * 86400000 + r by ring]
  have hcast : ((d * 86400000 + r : ℤ) : ℚ) / (1000 * 60 * 60 * 24) =
      (d : ℚ) + (r : ℚ) / 86400000 := by
    push_cast
    rw [show (1000 * 60 * 60 * 24 : ℚ) = 86400000 by norm_num, add_div,
      mul_div_cancel_right₀ _ (by norm_num : (86400000:ℚ) ≠ 0)]
  rw [hcast, Int.floor_int_add]
  have hz : ⌊(r : ℚ) / 86400000⌋ = 0 := by
    rw [Int.floor_eq_zero_iff]
    constructor
    · exact div_nonneg (by exact_mod_cast h0) (by norm_num)
    · rw [div_lt_one (by norm_num : (0:ℚ) < 86400000)]
      exact_mod_cast h1
  rw [hz, add_zero]

theorem c6_popup_fallback_age_epoch_derived_witness :
    useFallbackData_tleTimestamp_popup (fun _ => (0:ℤ)) = 0 ∧
    useFallbackData_dataAgeDays_popup (fun _ => (0:ℤ))
      (0 + 3 * 86400000 + 5) = 3 ∧
    ∀ now : ℤ, useFallbackData_tleTimestamp_ts now = now :=
  c6_popup_fallback_age_epoch_derived (fun _ => 0) 3 5 (by decide) (by decide)

lemma string_mk_length (l : List Char) : (⟨l⟩ : String).length = l.length := rfl

lemma jsPadStart_length (s : String) (n : ℕ) (c : Char) :
    (jsPadStart s n c).length = max n s.length := by
  unfold jsPadStart
  simp only [String.length_append, string_mk_length, List.length_replicate]
  omega

lemma jsPadEnd_length (s : String) (n : ℕ) (c : Char) :
    (jsPadEnd s n c).length = max n s.length := by
  unfold jsPadEnd
  simp only [String.length_append, string_mk_length, List.length_replicate]
  omega

lemma jsPadStart_eq_self (s : String) (n : ℕ) (c : Char) (h : n ≤ s.length) :
    jsPadStart s n c = s := by
  unfold jsPadStart
  rw [Nat.sub_eq_zero_of_le h]
  rfl

lemma jsSliceLast2_length (s : String) :
    (jsSliceLast2 s).length = min 2 s.length := by
  unfold jsSliceLast2
  rw [string_mk_length, List.length_drop]
  have h : s.data.length = s.length := rfl
  omega

lemma natToStringAux_zero (fuel : ℕ) : natToStringAux fuel 0 = [] := by
  cases fuel <;> simp [natToStringAux]

lemma natToStringAux_length (fuel : ℕ) : ∀ n, n ≠ 0 → n ≤ fuel →
    (natToStringAux fuel n).length = Nat.log 10 n + 1 := by
  induction fuel with
  | zero => intro n hn hf; omega
  | succ f ih =>
    intro n hn hf
    simp only [natToStringAux, if_neg hn, List.length_append, List.length_cons,
      List.length_nil]
    by_cases h10 : n < 10
    · rw [Nat.div_eq_of_lt h10, natToStringAux_zero]
      have hlog : Nat.log 10 n = 0 := Nat.log_eq_zero_iff.mpr (Or.inl h10)
      simp [hlog]
    · push_neg at h10
      have hd : n / 10 ≠ 0 := by
        have := Nat.div_pos h10 (by norm_num : 0 < 10)
        omega
      have hdf : n / 10 ≤ f := by
        have := Nat.div_lt_self (by omega : 0 < n) (by norm_num : 1 < 10)
        omega
      rw [ih (n / 10) hd hdf, Nat.log_of_one_lt_of_le (by norm_num) h10]

lemma natToString_length (n : ℕ) (hn : n ≠ 0) :
    (natToString n).length = Nat.log 10 n + 1 := by
  unfold natToString
  rw [if_neg hn, string_mk_length]
  exact natToStringAux_length n n hn le_rfl

lemma natToString_length_le (n k : ℕ) (hk : k ≠ 0) (h : n < 10 ^ k) :
    (natToString n).length ≤ k := by
  by_cases hn : n = 0
  · subst hn
    have h1 : (natToString 0).length = 1 := rfl
    omega
  · rw [natToString_length n hn]
    have := Nat.log_lt_of_lt_pow hn h
    omega

lemma natToString_length_eq_digits (k n : ℕ) (h1 : 10 ^ k ≤ n)
    (h2 : n < 10 ^ (k + 1)) : (natToString n).length = k + 1 := by
  have h0 : 0 < 10 ^ k := pow_pos (by norm_num) k
  have hn : n ≠ 0 := by omega
  rw [natToString_length n hn, Nat.log_eq_of_pow_le_of_lt_pow h1 h2]

lemma natToString_length_one (n : ℕ) (h : n < 10) :
    (natToString n).length = 1 := by
  by_cases hn : n = 0
  · subst hn; rfl
  · rw [natToString_length n hn, Nat.log_eq_zero_iff.mpr (Or.inl h)]

lemma intToString_of_nonneg (i : ℤ) (h : 0 ≤ i) :
    intToString i = natToString i.natAbs := if_neg (not_lt.mpr h)

lemma intToString_of_neg (i : ℤ) (h : i < 0) :
    intToString i = "-" ++ natToString i.natAbs := if_pos h

lemma log10floorAux_of_one_le_lt_ten (fuel : ℕ) (q : ℚ) (h1 : 1 ≤ q)
    (h2 : q < 10) : log10floorAux fuel q = 0 := by
  cases fuel with
  | zero => rfl
  | succ f => simp [log10floorAux, not_lt.mpr h1, h2]

lemma log10floorAux_spec_ge_one (fuel : ℕ) : ∀ q : ℚ, 1 ≤ q → q < 10 ^ fuel →
    (10:ℚ) ^ log10floorAux fuel q ≤ q ∧
      q < 10 ^ (log10floorAux fuel q + 1) := by
  induction fuel with
  | zero =>
    intro q h1 h2
    rw [pow_zero] at h2
    linarith
  | succ f ih =>
    intro q h1 h2
    by_cases hq10 : q < 10
    · rw [log10floorAux_of_one_le_lt_ten (f + 1) q h1 hq10]
      constructor
      · rw [zpow_zero]; exact h1
      · rw [zero_add, zpow_one]; exact hq10
    · push_neg at hq10
      have hd1 : 1 ≤ q / 10 := by
        rw [le_div_iff₀ (by norm_num : (0:ℚ) < 10)]
        linarith
      have hdf : q / 10 < 10 ^ f := by
        rw [div_lt_iff₀ (by norm_num : (0:ℚ) < 10)]
        calc q < 10 ^ (f + 1) := h2
          _ = 10 ^ f * 10 := by rw [pow_succ]
      obtain ⟨g1, g2⟩ := ih (q / 10) hd1 hdf
      simp only [log10floorAux, if_neg (not_lt.mpr (by linarith : (1:ℚ) ≤ q)),
        if_neg (not_lt.mpr hq10)]
      constructor
      · rw [zpow_add_one₀ (by norm_num : (10:ℚ) ≠ 0)]
        rw [le_div_iff₀ (by norm_num : (0:ℚ) < 10)] at g1
        exact g1
      · rw [div_lt_iff₀ (by norm_num : (0:ℚ) < 10)] at g2
        rw [zpow_add_one₀ (by norm_num : (10:ℚ) ≠ 0)]
        exact g2

lemma log10floorAux_spec_lt_one (fuel : ℕ) : ∀ q : ℚ, 0 < q → q < 1 →
    1 ≤ q * 10 ^ fuel →
    (10:ℚ) ^ log10floorAux fuel q ≤ q ∧
      q < 10 ^ (log10floorAux fuel q + 1) := by
  induction fuel with
  | zero =>
    intro q h0 h1 hf
    rw [pow_zero, mul_one] at hf
    linarith
  | succ f ih =>
    intro q h0 h1 hf
    simp only [log10floorAux, if_pos h1]
    by_cases h10 : q * 10 < 1
    · have hff : 1 ≤ q * 10 * 10 ^ f := by
        calc (1:ℚ) ≤ q * 10 ^ (f + 1) := hf
          _ = q * 10 * 10 ^ f := by ring
      obtain ⟨g1, g2⟩ := ih (q * 10) (by positivity) h10 hff
      constructor
      · rw [zpow_sub_one₀ (by norm_num : (10:ℚ) ≠ 0)]
        have : (10:ℚ)⁻¹ = 1 / 10 := by norm_num
        rw [this, mul_one_div, div_le_iff₀ (by norm_num : (0:ℚ) < 10)]
        exact g1
      · rw [zpow_add_one₀ (by norm_num : (10:ℚ) ≠ 0)] at g2
        have hq : q < 10 ^ log10floorAux f (q * 10) := by
          have h10pos : (0:ℚ) < 10 := by norm_num
          nlinarith [g2]
        rw [show log10floorAux f (q * 10) - 1 + 1 =
          log10floorAux f (q * 10) by ring]
        exact hq
    · push_neg at h10
      have h100 : q * 10 < 10 := by linarith
      rw [log10floorAux_of_one_le_lt_ten f (q * 10) h10 h100]
      constructor
      · rw [show (0 - 1 : ℤ) = -1 by ring, zpow_neg_one]
        have : (10:ℚ)⁻¹ = 1 / 10 := by norm_num
        rw [this, div_le_iff₀ (by norm_num : (0:ℚ) < 10)]
        linarith
      · rw [show (0 - 1 + 1 : ℤ) = 0 by ring, zpow_zero]
        exact h1

lemma log10floor_spec (q : ℚ) (hq : 0 < q) :
    (10:ℚ) ^ log10floor q ≤ q ∧ q < 10 ^ (log10floor q + 1) := by
  unfold log10floor
  rcases lt_or_le q 1 with h | h
  · apply log10floorAux_spec_lt_one _ q hq h
    have hnum : 1 ≤ q.num := Rat.num_pos.mpr hq
    have hden0 : (0:ℚ) < (q.den : ℚ) := by
      exact_mod_cast q.den_pos
    have hq_ge : 1 / (q.den : ℚ) ≤ q := by
      rw [div_le_iff₀ hden0, Rat.mul_den_eq_num]
      exact_mod_cast hnum
    have hden : (q.den : ℚ) ≤ 10 ^ (q.num.natAbs + q.den) := by
      have s1 : q.den < 10 ^ q.den := Nat.lt_pow_self (by norm_num) q.den
      have s2 : (10:ℕ) ^ q.den ≤ 10 ^ (q.num.natAbs + q.den) :=
        Nat.pow_le_pow_right (by norm_num) (by omega)
      have : (q.den : ℚ) < ((10:ℕ) ^ (q.num.natAbs + q.den) : ℕ) := by
        exact_mod_cast lt_of_lt_of_le s1 s2
      calc (q.den : ℚ) ≤ ((10:ℕ) ^ (q.num.natAbs + q.den) : ℕ) := this.le
        _ = 10 ^ (q.num.natAbs + q.den) := by push_cast; ring
    calc (1:ℚ) = (1 / q.den) * q.den := by field_simp
      _ ≤ q * 10 ^ (q.num.natAbs + q.den) :=
          mul_le_mul hq_ge hden hden0.le (by linarith)
  · apply log10floorAux_spec_ge_one _ q h
    have hq0 : 0 < q := by linarith
    have hpos : 0 < q.num := Rat.num_pos.mpr hq0
    have h1 : q ≤ (q.num : ℚ) := by
      nth_rewrite 1 [← Rat.num_div_den q]
      apply div_le_self (by exact_mod_cast hpos.le)
      exact_mod_cast q.den_pos
    have h2 : (q.num : ℚ) < 10 ^ q.num.natAbs := by
      have s1 : q.num.natAbs < 10 ^ q.num.natAbs :=
        Nat.lt_pow_self (by norm_num) q.num.natAbs
      have s6 : (q.num.natAbs : ℤ) < (10:ℤ) ^ q.num.natAbs := by
        exact_mod_cast s1
      have s7 : q.num < (10:ℤ) ^ q.num.natAbs := by
        rwa [Int.natAbs_of_nonneg hpos.le] at s6
      exact_mod_cast s7
    have h3 : (10:ℚ) ^ q.num.natAbs ≤ 10 ^ (q.num.natAbs + q.den) :=
      pow_le_pow_right₀ (by norm_num) (by omega)
    linarith

lemma log10floor_eq_of (q : ℚ) (e : ℤ) (hq : 0 < q)
    (h1 : (10:ℚ) ^ e ≤ q) (h2 : q < 10 ^ (e + 1)) : log10floor q = e := by
  obtain ⟨g1, g2⟩ := log10floor_spec q hq
  by_contra hne
  rcases lt_or_gt_of_ne hne with hlt | hgt
  · have : (10:ℚ) ^ (log10floor q + 1) ≤ 10 ^ e :=
      zpow_le_zpow_right₀ (by norm_num) (by omega)
    linarith
  · have : (10:ℚ) ^ (e + 1) ≤ 10 ^ log10floor q :=
      zpow_le_zpow_right₀ (by norm_num) (by omega)
    linarith

lemma mantissa_bounds (q : ℚ) (hq : 0 < q) :
    1 ≤ q / 10 ^ log10floor q ∧ q / 10 ^ log10floor q < 10 := by
  obtain ⟨g1, g2⟩ := log10floor_spec q hq
  have hpow : (0:ℚ) < 10 ^ log10floor q := zpow_pos (by norm_num) _
  constructor
  · rw [le_div_iff₀ hpow, one_mul]
    exact g1
  · rw [div_lt_iff₀ hpow]
    calc q < 10 ^ (log10floor q + 1) := g2
      _ = 10 ^ log10floor q * 10 := by
          rw [zpow_add_one₀ (by norm_num : (10:ℚ) ≠ 0)]
      _ = 10 * 10 ^ log10floor q := by ring

lemma mantissaInt6_bounds (q : ℚ) (hq : 0 < q) :
    100000 ≤ ⌊q / 10 ^ log10floor q * 100000⌋ ∧
      ⌊q / 10 ^ log10floor q * 100000⌋ < 1000000 := by
  obtain ⟨m1, m2⟩ := mantissa_bounds q hq
  constructor
  · apply Int.le_floor.mpr
    push_cast
    nlinarith
  · rw [Int.floor_lt]
    push_cast
    nlinarith

lemma mantissaInt5_bounds (q : ℚ) (hq : 0 < q) :
    10000 ≤ ⌊q / 10 ^ log10floor q * 10000⌋ ∧
      ⌊q / 10 ^ log10floor q * 10000⌋ < 100000 := by
  obtain ⟨m1, m2⟩ := mantissa_bounds q hq
  constructor
  · apply Int.le_floor.mpr
    push_cast
    nlinarith
  · rw [Int.floor_lt]
    push_cast
    nlinarith

lemma formatScientific_of_ne_zero (q : ℚ) (w : ℕ) (hq : q ≠ 0) :
    formatScientific q w =
      (if 0 ≤ q then " " else "-") ++
        jsPadStart (intToString ⌊|q| / 10 ^ log10floor |q| * 100000⌋) 5 '0' ++
        (if 0 ≤ log10floor |q| then "+" else "") ++
        intToString (log10floor |q|) := by
  simp only [formatScientific, if_neg hq]

lemma formatBstarFromJson_of_ne_zero (q : ℚ) (hq : q ≠ 0) :
    formatBstarFromJson q =
      jsPadStart (natToString (⌊q * 10 ^ (-(log10floor |q|) + 4)⌋).natAbs) 5 '0' ++
        (if 0 ≤ log10floor |q| then "+" else "") ++
        intToString (log10floor |q|) := by
  simp only [formatBstarFromJson, if_neg hq]

lemma formatScientific_zero (w : ℕ) : formatScientific 0 w = " 00000-0" := by
  simp [formatScientific]

lemma formatBstarFromJson_zero : formatBstarFromJson 0 = "00000-0" := by
  simp [formatBstarFromJson]

lemma formatScientific_length_nine (q : ℚ) (hq : q ≠ 0)
    (hlo : -9 ≤ log10floor |q|) (hhi : log10floor |q| ≤ 9) :
    (formatScientific q 8).length = 9 := by
  have habs : 0 < |q| := abs_pos.mpr hq
  obtain ⟨hb1, hb2⟩ := mantissaInt6_bounds |q| habs
  rw [formatScientific_of_ne_zero q 8 hq]
  rw [String.length_append, String.length_append, String.length_append]
  have hMlen : (intToString ⌊|q| / 10 ^ log10floor |q| * 100000⌋).length = 6 := by
    rw [intToString_of_nonneg _ (by omega)]
    apply natToString_length_eq_digits 5
    · have e5 : (10:ℕ) ^ 5 = 100000 := by norm_num
      omega
    · have e6 : (10:ℕ) ^ 6 = 1000000 := by norm_num
      omega
  have hpad : (jsPadStart (intToString ⌊|q| / 10 ^ log10floor |q| * 100000⌋)
      5 '0').length = 6 := by
    rw [jsPadStart_length, hMlen]
    rfl
  have hsign : ((if 0 ≤ q then " " else "-") : String).length = 1 := by
    split_ifs <;> rfl
  have hexp : ((if 0 ≤ log10floor |q| then "+" else "") : String).length +
      (intToString (log10floor |q|)).length = 2 := by
    by_cases h : 0 ≤ log10floor |q|
    · rw [if_pos h, intToString_of_nonneg _ h]
      have h1 : (natToString (log10floor |q|).natAbs).length = 1 :=
        natToString_length_one _ (by omega)
      have hplus : ("+" : String).length = 1 := rfl
      omega
    · push_neg at h
      rw [if_neg (not_le.mpr h), intToString_of_neg _ h, String.length_append]
      have h1 : (natToString (log10floor |q|).natAbs).length = 1 :=
        natToString_length_one _ (by omega)
      have hdash : ("-" : String).length = 1 := rfl
      have hemp : ("" : String).length = 0 := rfl
      omega
  omega

lemma formatBstarFromJson_length_seven (q : ℚ) (hq : 0 < q)
    (hlo : -9 ≤ log10floor q) (hhi : log10floor q ≤ 9) :
    (formatBstarFromJson q).length = 7 := by
  have habs : |q| = q := abs_of_pos hq
  obtain ⟨hb1, hb2⟩ := mantissaInt5_bounds q hq
  have hrw : q * 10 ^ (-(log10floor q) + 4) = q / 10 ^ log10floor q * 10000 := by
    rw [zpow_add₀ (by norm_num : (10:ℚ) ≠ 0), zpow_neg]
    rw [show ((10:ℚ) ^ (4:ℤ)) = 10000 by norm_num]
    rw [div_eq_mul_inv, mul_assoc]
  rw [formatBstarFromJson_of_ne_zero q hq.ne', habs, hrw]
  rw [String.length_append, String.length_append]
  have hMlen : (natToString (⌊q / 10 ^ log10floor q * 10000⌋).natAbs).length = 5 := by
    apply natToString_length_eq_digits 4
    · have e4 : (10:ℕ) ^ 4 = 10000 := by norm_num
      omega
    · have e5 : (10:ℕ) ^ 5 = 100000 := by norm_num
      omega
  have hpad : (jsPadStart (natToString
      (⌊q / 10 ^ log10floor q * 10000⌋).natAbs) 5 '0').length = 5 := by
    rw [jsPadStart_length, hMlen]
    rfl
  have hexp : ((if 0 ≤ log10floor q then "+" else "") : String).length +
      (intToString (log10floor q)).length = 2 := by
    by_cases h : 0 ≤ log10floor q
    · rw [if_pos h, intToString_of_nonneg _ h]
      have h1 : (natToString (log10floor q).natAbs).length = 1 :=
        natToString_length_one _ (by omega)
      have hplus : ("+" : String).length = 1 := rfl
      omega
    · push_neg at h
      rw [if_neg (not_le.mpr h), intToString_of_neg _ h, String.length_append]
      have h1 : (natToString (log10floor q).natAbs).length = 1 :=
        natToString_length_one _ (by omega)
      have hdash : ("-" : String).length = 1 := rfl
      have hemp : ("" : String).length = 0 := rfl
      omega
  omega

lemma jsToFixed_eval (q : ℚ) (d : ℕ) (n : ℤ) (hq : 0 ≤ q)
    (hn : ⌊q * 10 ^ d + 1 / 2⌋ = n) : jsToFixed q d = natFixed n.toNat d := by
  have h0 : 0 ≤ n := hn ▸ Int.floor_nonneg.mpr (by positivity)
  simp only [jsToFixed]
  rw [hn, if_neg]
  rintro (h | ⟨-, h⟩)
  · omega
  · exact absurd h (not_lt.mpr hq)

lemma formatScientific_iss_bstar :
    formatScientific (0.000021906 : ℚ) 8 = " 219060-5" := by
  have hq : (0.000021906 : ℚ) ≠ 0 := by norm_num
  have habs : |(0.000021906 : ℚ)| = 0.000021906 := abs_of_pos (by norm_num)
  have he : log10floor (0.000021906 : ℚ) = -5 :=
    log10floor_eq_of _ (-5) (by norm_num) (by norm_num) (by norm_num)
  have hm : ⌊(0.000021906 : ℚ) / 10 ^ (-5 : ℤ) * 100000⌋ = 219060 := by
    rw [show ((10:ℚ) ^ (-5:ℤ)) = 1 / 100000 by norm_num]
    norm_num
  rw [formatScientific_of_ne_zero _ 8 hq, habs, he, hm,
    if_pos (by norm_num : (0:ℚ) ≤ 0.000021906),
    if_neg (by decide : ¬ (0:ℤ) ≤ -5)]
  decide

lemma formatScientific_e15 :
    formatScientific (1000000000000000 : ℚ) 8 = " 100000+15" := by
  have hq : (1000000000000000 : ℚ) ≠ 0 := by norm_num
  have habs : |(1000000000000000 : ℚ)| = 1000000000000000 :=
    abs_of_pos (by norm_num)
  have he : log10floor (1000000000000000 : ℚ) = 15 :=
    log10floor_eq_of _ 15 (by norm_num) (by norm_num) (by norm_num)
  have hm : ⌊(1000000000000000 : ℚ) / 10 ^ (15 : ℤ) * 100000⌋ = 100000 := by
    rw [show ((10:ℚ) ^ (15:ℤ)) = 1000000000000000 by norm_num]
    norm_num
  rw [formatScientific_of_ne_zero _ 8 hq, habs, he, hm,
    if_pos (by norm_num : (0:ℚ) ≤ 1000000000000000),
    if_pos (by decide : (0:ℤ) ≤ 15)]
  decide

lemma formatScientific_popup_bstar :
    formatScientific (0.00023814 : ℚ) 8 = " 238140-4" := by
  have hq : (0.00023814 : ℚ) ≠ 0 := by norm_num
  have habs : |(0.00023814 : ℚ)| = 0.00023814 := abs_of_pos (by norm_num)
  have he : log10floor (0.00023814 : ℚ) = -4 :=
    log10floor_eq_of _ (-4) (by norm_num) (by norm_num) (by norm_num)
  have hm : ⌊(0.00023814 : ℚ) / 10 ^ (-4 : ℤ) * 100000⌋ = 238140 := by
    rw [show ((10:ℚ) ^ (-4:ℤ)) = 1 / 10000 by norm_num]
    norm_num
  rw [formatScientific_of_ne_zero _ 8 hq, habs, he, hm,
    if_pos (by norm_num : (0:ℚ) ≤ 0.00023814),
    if_neg (by decide : ¬ (0:ℤ) ≤ -4)]
  decide

lemma formatBstarFromJson_popup_bstar :
    formatBstarFromJson (0.00023814 : ℚ) = "23814-4" := by
  have hq : (0.00023814 : ℚ) ≠ 0 := by norm_num
  have habs : |(0.00023814 : ℚ)| = 0.00023814 := abs_of_pos (by norm_num)
  have he : log10floor (0.00023814 : ℚ) = -4 :=
    log10floor_eq_of _ (-4) (by norm_num) (by norm_num) (by norm_num)
  have hm : ⌊(0.00023814 : ℚ) * 10 ^ (-(-4 : ℤ) + 4)⌋ = 23814 := by
    rw [show (-(-4 : ℤ) + 4) = 8 by decide,
      show ((10:ℚ) ^ (8:ℤ)) = 100000000 by norm_num]
    norm_num
  rw [formatBstarFromJson_of_ne_zero _ hq, habs, he, hm,
    if_neg (by decide : ¬ (0:ℤ) ≤ -4)]
  decide

lemma formatEpochCorrect_const (s : String) :
    formatEpochCorrect (fun _ => ⟨2024, 1, 0⟩) s = "24001.00000000" := by
  simp only [formatEpochCorrect]
  rw [jsToFixed_eval _ 8 100000000 (by positivity) (by norm_num)]
  decide

lemma periodDisplay_ts_iss : periodDisplay_ts issFallbackTLE = "92.96" := by
  unfold periodDisplay_ts periodMinutes
  simp only [issFallbackTLE]
  rw [jsToFixed_eval _ 2 9296 (by positivity) (by norm_num)]
  decide

lemma periodDisplay_popup_iss : periodDisplay_popup issFallbackTLE = "93.0" := by
  unfold periodDisplay_popup periodMinutes
  simp only [issFallbackTLE]
  rw [jsToFixed_eval _ 1 930 (by positivity) (by norm_num)]
  decide

/-- C7: evaluating the encoder at the ISS drag term hard-coded in the source,
`BSTAR = 0.000021906` shows the derivative/drag field comes out as
`" 219060-5"` — a leading sign character, a SIX-digit mantissa and a signed
exponent, 9 characters wide — while the exact-zero field is the 8-character
`" 00000-0"`, so the documented fixed widths (sign + 5-digit mantissa +
signed single exponent digit, 8 characters) are violated and the width of
line 1 varies with the field values. -/
theorem c7_tle1_derivative_field_layout :
    formatScientific (0.000021906 : ℚ) 8 = " 219060-5" ∧
    (formatScientific (0.000021906 : ℚ) 8).length = 9 ∧
    formatScientific 0 8 = " 00000-0" ∧
    (formatScientific (0 : ℚ) 8).length = 8 := by
  refine ⟨formatScientific_iss_bstar, ?_, formatScientific_zero 8, ?_⟩
  · rw [formatScientific_iss_bstar]
    decide
  · rw [formatScientific_zero]
    decide

/-- C8 counterexample: a mean-motion derivative of `10^15` — far too large
for its 8-character field — is rendered as the 10-character `" 100000+15"`
and interpolated verbatim into the encoded line 1, which is returned to the
caller as an ordinary string: no validation failure of any kind is
surfaced. -/
theorem c8_counterexample_oversized_field_silently_embedded :
    formatScientific (1000000000000000 : ℚ) 8 = " 100000+15" ∧
    (formatScientific (1000000000000000 : ℚ) 8).length = 10 ∧
    generateTLE1 (fun _ => ⟨2024, 1, 0⟩)
        { issFallbackTLE with MEAN_MOTION_DOT := 1000000000000000 } =
      "1 25544U 1998-067A 24001.00000000  100000+15  00000-0  219060-5 0 09990" := by
  refine ⟨formatScientific_e15, ?_, ?_⟩
  · rw [formatScientific_e15]
    decide
  · simp only [generateTLE1, issFallbackTLE]
    rw [formatScientific_e15, formatScientific_zero, formatScientific_iss_bstar,
      formatEpochCorrect_const]
    decide

/-- C8 (amended): encoding a record into line 1 is total — it always returns
a string to the caller — but performs no validation: the three
derivative/drag fields produced by `formatScientific` are interpolated
verbatim into the line whatever their width, so a malformed (too-large)
numeric field yields a silently overwide line rather than an encoding
error. -/
theorem c8_generateTLE1_total_no_validation (parse : String → DateParts)
    (t : TLEData) :
    ∃ pre post, generateTLE1 parse t =
      pre ++ formatScientific t.MEAN_MOTION_DOT 8 ++ " " ++
        formatScientific t.MEAN_MOTION_DDOT 8 ++ " " ++
        formatScientific t.BSTAR 8 ++ post := by
  refine ⟨"1 " ++ jsPadStart (natToString t.NORAD_CAT_ID) 5 '0' ++
    (if t.CLASSIFICATION_TYPE = "" then "U" else t.CLASSIFICATION_TYPE) ++
    " " ++ jsPadEnd t.OBJECT_ID 8 ' ' ++ " " ++
    formatEpochCorrect parse t.EPOCH ++ " ",
    " " ++ natToString t.EPHEMERIS_TYPE ++ " " ++
    jsPadStart (natToString (if t.ELEMENT_SET_NO = 0 then 999
      else t.ELEMENT_SET_NO)) 4 '0' ++ "0", ?_⟩
  simp only [generateTLE1]
  simp [String.append_assoc]

/-- C9 counterexample: for the end-to-end mean motion `15.49112426` rev/day
the period reported at the two-decimal precision of the ts variant is `"92.96"`
minutes (the exact value is `1440 / 15.49112426 ≈ 92.9565`), not the claimed
`92.97`. -/
theorem c9_counterexample_reported_period :
    periodDisplay_ts issFallbackTLE = "92.96" ∧
    ("92.96" : String) ≠ "92.97" :=
  ⟨periodDisplay_ts_iss, by decide⟩

/-- C9 (amended): the orbital period carried in every data update equals
1440 divided by the mean motion of the record, in minutes; for mean motion
`15.49112426` rev/day the reported period is `"92.96"` at two decimals in
the ts variant and `"93.0"` at one decimal in the popup variant. -/
theorem c9_period_formula :
    (∀ t : TLEData, t.MEAN_MOTION ≠ 0 →
      periodMinutes t * t.MEAN_MOTION = 1440) ∧
    periodDisplay_ts issFallbackTLE = "92.96" ∧
    periodDisplay_popup issFallbackTLE = "93.0" := by
  refine ⟨fun t ht => ?_, periodDisplay_ts_iss, periodDisplay_popup_iss⟩
  unfold periodMinutes
  rw [div_mul_cancel₀ _ ht]
  norm_num

theorem c9_period_formula_witness :
    periodMinutes issFallbackTLE * issFallbackTLE.MEAN_MOTION = 1440 :=
  c9_period_formula.1 issFallbackTLE (by norm_num [issFallbackTLE])

/-- C10 counterexample: on the popup fallback drag term `0.00023814` the two
scientific encoders disagree beyond the leading sign character:
`formatScientific` renders `" 238140-4"` (six-digit mantissa) while
`formatBstarFromJson` renders `"23814-4"` (five-digit mantissa). -/
theorem c10_counterexample_encoders_disagree :
    formatScientific (0.00023814 : ℚ) 8 = " 238140-4" ∧
    formatBstarFromJson (0.00023814 : ℚ) = "23814-4" ∧
    (" 238140-4" : String) ≠ " " ++ "23814-4" :=
  ⟨formatScientific_popup_bstar, formatBstarFromJson_popup_bstar, by decide⟩

/-- C10 (amended): the two encoders agree on exactly zero apart from
the leading sign character that `formatScientific` adds, but on positive inputs with a
single-digit exponent they differ in mantissa precision: `formatScientific`
emits a 9-character field with a six-digit mantissa while
`formatBstarFromJson` emits a 7-character field with a five-digit
mantissa. -/
theorem c10_encoders_zero_and_mantissa_widths (q : ℚ) (hq : 0 < q)
    (hlo : -9 ≤ log10floor q) (hhi : log10floor q ≤ 9) :
    formatScientific 0 8 = " " ++ formatBstarFromJson 0 ∧
    (formatScientific q 8).length = 9 ∧
    (formatBstarFromJson q).length = 7 := by
  refine ⟨?_, ?_, formatBstarFromJson_length_seven q hq hlo hhi⟩
  · rw [formatScientific_zero, formatBstarFromJson_zero]
    decide
  · apply formatScientific_length_nine q hq.ne'
    · rwa [abs_of_pos hq]
    · rwa [abs_of_pos hq]

theorem c10_encoders_zero_and_mantissa_widths_witness :
    formatScientific 0 8 = " " ++ formatBstarFromJson 0 ∧
    (formatScientific (0.00023814 : ℚ) 8).length = 9 ∧
    (formatBstarFromJson (0.00023814 : ℚ)).length = 7 := by
  have he : log10floor (0.00023814 : ℚ) = -4 :=
    log10floor_eq_of _ (-4) (by norm_num) (by norm_num) (by norm_num)
  exact c10_encoders_zero_and_mantissa_widths 0.00023814 (by norm_num)
    (by rw [he]; decide) (by rw [he]; decide)
